import Mathlib

/-!
Verification of the user-management account subsystem.

Shallow embedding of the account model and the user-service operations of
this repository (app/models/user_model.py, app/schemas/user_schemas.py,
app/services/user_service.py). The database is a list of account rows; each
service operation is a pure function from the row list (and its explicit
inputs: clock value, configured maximum login attempts, generated token and
nickname supplies) to a result together with the committed row list.

Modelling conventions, kept uniform across the file:
  - SQLAlchemy rows become a Lean structure with one field per column that
    the service layer reads or writes; the audit columns created_at and
    updated_at are server-managed and never read by the embedded code, so
    they are omitted.
  - JSONB array columns (skills, interests, education, work_experience)
    hold lists whose element structure is never inspected by the embedded
    code; the elements are represented as opaque strings.
  - Python truthiness on optional columns: a missing value and an empty
    string or empty list are falsy; a present date is always truthy.
  - Python round applied to field-count percentages: the percentage
    100 * k / d for the denominators used here (17, 7, 3) is never exactly
    halfway between two integers, so round-half-to-even agrees with
    round-half-up and with exact rational rounding; the embedding uses
    Lean round on an exact rational, which agrees with the source for
    every reachable count.
-/

namespace UserMgmt

/-- Enumeration of user roles, from app/models/user_model.py. -/
inductive UserRole where
  | ANONYMOUS
  | AUTHENTICATED
  | MANAGER
  | ADMIN
deriving DecidableEq, Repr

/-- One row of the users table, from app/models/user_model.py. Columns that
the embedded service code never reads or writes (created_at, updated_at)
are omitted; ids and timestamps are abstracted as naturals. -/
structure User where
  id : Nat
  nickname : String
  email : String
  first_name : Option String
  last_name : Option String
  bio : Option String
  profile_picture_url : Option String
  linkedin_profile_url : Option String
  github_profile_url : Option String
  twitter_profile_url : Option String
  personal_website_url : Option String
  phone_number : Option String
  date_of_birth : Option Nat
  location : Option String
  skills : Option (List String)
  interests : Option (List String)
  education : Option (List String)
  work_experience : Option (List String)
  preferred_language : Option String
  timezone : Option String
  profile_completion : Option Int
  role : UserRole
  is_professional : Bool
  professional_status_updated_at : Option Nat
  last_login_at : Option Nat
  failed_login_attempts : Nat
  is_locked : Bool
  verification_token : Option String
  email_verified : Bool
  hashed_password : String
deriving DecidableEq, Repr

/-- Python truthiness of an optional string column: present and non-empty
(stated on the character list of the string). -/
def strTruthy : Option String → Bool
  | none => false
  | some s => !s.data.isEmpty

/-- Python truthiness of an optional JSONB list column: present and non-empty. -/
def listTruthy : Option (List String) → Bool
  | none => false
  | some l => !l.isEmpty

/-- Python truthiness of an optional date column: a date object is always truthy. -/
def dateTruthy : Option Nat → Bool
  | none => false
  | some _ => true

/-- The fixed ordered list of the 17 optional profile attributes inspected by
User.calculate_profile_completion (user_model.py lines 129-135), as their
truthiness flags. -/
def fieldFlags (u : User) : List Bool :=
  [ strTruthy u.first_name, strTruthy u.last_name, strTruthy u.bio,
    strTruthy u.profile_picture_url, strTruthy u.linkedin_profile_url,
    strTruthy u.github_profile_url, strTruthy u.twitter_profile_url,
    strTruthy u.personal_website_url, strTruthy u.phone_number,
    dateTruthy u.date_of_birth, strTruthy u.location, listTruthy u.skills,
    listTruthy u.interests, listTruthy u.education,
    listTruthy u.work_experience, strTruthy u.preferred_language,
    strTruthy u.timezone ]

/-- Number of filled (truthy) profile attributes among the fixed 17. -/
def filledFieldCount (u : User) : Nat := (fieldFlags u).count true

/-- User.calculate_profile_completion: percentage of the 17 tracked profile
attributes that are filled, rounded to the nearest integer
(user_model.py lines 126-147). The mutation of the row is modelled by
`recomputeCompletion`. -/
def calculate_profile_completion (u : User) : Int :=
  round ((filledFieldCount u : ℚ) / 17 * 100)

/-- The self-mutation performed by User.calculate_profile_completion:
store the recomputed percentage on the row. -/
def recomputeCompletion (u : User) : User :=
  { u with profile_completion := some (calculate_profile_completion u) }

/-- Per-section completion percentages of
User.get_profile_completion_details. -/
structure SectionCompletion where
  basic_info : Int
  professional_info : Int
  preferences : Int
deriving DecidableEq, Repr

/-- Per-field presence maps of User.get_profile_completion_details, one
(name, truthiness) list per section. -/
structure FieldStatus where
  basic_info : List (String × Bool)
  professional_info : List (String × Bool)
  preferences : List (String × Bool)
deriving DecidableEq, Repr

/-- Return value of User.get_profile_completion_details. -/
structure ProfileCompletionDetails where
  overall_completion : Option Int
  section_completion : SectionCompletion
  field_status : FieldStatus
deriving DecidableEq, Repr

/-- The basic_info presence map of User.get_profile_completion_details
(user_model.py lines 153-161), in source order. -/
def basicInfoFlags (u : User) : List (String × Bool) :=
  [ ("first_name", strTruthy u.first_name),
    ("last_name", strTruthy u.last_name),
    ("profile_picture", strTruthy u.profile_picture_url),
    ("bio", strTruthy u.bio),
    ("phone_number", strTruthy u.phone_number),
    ("date_of_birth", dateTruthy u.date_of_birth),
    ("location", strTruthy u.location) ]

/-- The professional_info presence map of User.get_profile_completion_details
(user_model.py lines 162-170), in source order. -/
def professionalInfoFlags (u : User) : List (String × Bool) :=
  [ ("linkedin_profile", strTruthy u.linkedin_profile_url),
    ("github_profile", strTruthy u.github_profile_url),
    ("twitter_profile", strTruthy u.twitter_profile_url),
    ("personal_website", strTruthy u.personal_website_url),
    ("skills", listTruthy u.skills),
    ("work_experience", listTruthy u.work_experience),
    ("education", listTruthy u.education) ]

/-- The preferences presence map of User.get_profile_completion_details
(user_model.py lines 171-175), in source order. -/
def preferencesFlags (u : User) : List (String × Bool) :=
  [ ("interests", listTruthy u.interests),
    ("preferred_language", strTruthy u.preferred_language),
    ("timezone", strTruthy u.timezone) ]

/-- Rounded percentage of present attributes in one section
(user_model.py lines 179-183). -/
def sectionPercent (flags : List (String × Bool)) : Int :=
  round ((((flags.map Prod.snd).count true : ℚ)) / (flags.length : ℚ) * 100)

/-- User.get_profile_completion_details (user_model.py lines 149-189):
overall stored completion plus per-section percentages and presence maps. -/
def get_profile_completion_details (u : User) : ProfileCompletionDetails :=
  { overall_completion := u.profile_completion
    section_completion :=
      { basic_info := sectionPercent (basicInfoFlags u)
        professional_info := sectionPercent (professionalInfoFlags u)
        preferences := sectionPercent (preferencesFlags u) }
    field_status :=
      { basic_info := basicInfoFlags u
        professional_info := professionalInfoFlags u
        preferences := preferencesFlags u } }

/-- User.update_professional_status (user_model.py lines 121-124): set the
professional flag and stamp the change time, unconditionally. The SQL
func.now() server clock is the explicit `now` argument. -/
def User.updateProfessionalStatus (u : User) (status : Bool) (now : Nat) : User :=
  { u with is_professional := status, professional_status_updated_at := some now }

/-- UserService._fetch_user with an email filter (get_by_email): first row
whose email column matches. -/
def fetchByEmail (db : List User) (email : String) : Option User :=
  db.find? (fun r => r.email == email)

/-- UserService._fetch_user with an id filter (get_by_id): first row whose
id column matches. -/
def fetchById (db : List User) (user_id : Nat) : Option User :=
  db.find? (fun r => r.id == user_id)

/-- UserService._fetch_user with a nickname filter (get_by_nickname). -/
def fetchByNickname (db : List User) (nickname : String) : Option User :=
  db.find? (fun r => r.nickname == nickname)

/-- Committing a mutated row through the session (session.add + commit):
every row carrying the same primary key is replaced by the new value. -/
def updateRow (db : List User) (w : User) : List User :=
  db.map (fun r => if r.id == w.id then w else r)

/-- Database well-formedness used by some theorems: primary keys are unique.
The store enforces this through the primary-key constraint. -/
def idsNodup (db : List User) : Prop := (db.map User.id).Nodup

instance (db : List User) : Decidable (idsNodup db) := by
  unfold idsNodup; infer_instance

/-- Modelled from the spec: app/utils/security.py (hash_password) is not
under src; section 6 of the spec treats it as a provided capability
hash(plaintext) -> digest. Digests are opaque strings determined by the
plaintext. -/
def hash_password (p : String) : String := "bcrypt$" ++ p

/-- Modelled from the spec: app/utils/security.py (verify_password) is not
under src; section 6 of the spec treats it as a provided capability
verify(plaintext, digest) -> bool that accepts exactly the digest of the
plaintext. -/
def verify_password (plain digest : String) : Bool := digest == hash_password plain

/-- Input accepted by the UserCreate schema (user_schemas.py lines 20-67):
required email and password, required role, and the optional profile
columns. The optional nickname input is omitted because create overwrites
it unconditionally with a generated one (user_service.py line 65). -/
structure UserCreateInput where
  email : String
  password : String
  role : UserRole
  first_name : Option String
  last_name : Option String
  bio : Option String
  profile_picture_url : Option String
  linkedin_profile_url : Option String
  github_profile_url : Option String
  twitter_profile_url : Option String
  personal_website_url : Option String
  phone_number : Option String
  date_of_birth : Option Nat
  location : Option String
  skills : Option (List String)
  interests : Option (List String)
  education : Option (List String)
  work_experience : Option (List String)
  preferred_language : Option String
  timezone : Option String
  profile_completion : Option Int
deriving DecidableEq, Repr

/-- The UserCreate password validators (user_schemas.py lines 55-67):
minimum length 8 and at least one uppercase, lowercase, digit and
non-alphanumeric character. -/
def passwordPolicyOk (p : String) : Bool :=
  decide (8 ≤ p.data.length) && p.data.any Char.isUpper && p.data.any Char.isLower &&
    p.data.any Char.isDigit && p.data.any (fun c => !c.isAlphanum)

/-- UserCreate validation. Email-format and URL-format validation of the
schema is abstracted away: no claim depends on which well-formed inputs
pass those format checks. -/
def validUserCreate (inp : UserCreateInput) : Bool := passwordPolicyOk inp.password

/-- Outcome of UserService.create: the returned account, the committed rows
and whether a verification email was dispatched through the notifier. -/
structure CreateOutcome where
  user : Option User
  db : List User
  emailSent : Bool
deriving DecidableEq, Repr

/-- The nickname-generation loop of create (user_service.py lines 62-64):
draw generated candidates until one is not in use. The unbounded retry of
the source is modelled over a finite supply of generator outputs; a supply
with no fresh name yields failure where the source would keep drawing. -/
def pickNickname (db : List User) (tape : List String) : Option String :=
  tape.find? (fun n => (fetchByNickname db n).isNone)

/-- The row constructed by User(**validated_data) in create before role
assignment (user_service.py line 61): schema inputs carried over verbatim,
password replaced by its digest, all remaining columns at their defaults.
The caller-supplied profile_completion is carried over, since UserCreate
inherits that field from UserBase (user_schemas.py line 44). -/
def mkNewUser (newId : Nat) (inp : UserCreateInput) (nick : String) : User :=
  { id := newId
    nickname := nick
    email := inp.email
    first_name := inp.first_name
    last_name := inp.last_name
    bio := inp.bio
    profile_picture_url := inp.profile_picture_url
    linkedin_profile_url := inp.linkedin_profile_url
    github_profile_url := inp.github_profile_url
    twitter_profile_url := inp.twitter_profile_url
    personal_website_url := inp.personal_website_url
    phone_number := inp.phone_number
    date_of_birth := inp.date_of_birth
    location := inp.location
    skills := inp.skills
    interests := inp.interests
    education := inp.education
    work_experience := inp.work_experience
    preferred_language := inp.preferred_language
    timezone := inp.timezone
    profile_completion := inp.profile_completion
    role := inp.role
    is_professional := false
    professional_status_updated_at := none
    last_login_at := none
    failed_login_attempts := 0
    is_locked := false
    verification_token := none
    email_verified := false
    hashed_password := hash_password inp.password }

/-- UserService.create (user_service.py lines 52-81). Explicit inputs for
the environment: the nickname-generator supply `tape`, the token from
generate_verification_token and the generated row id. Validation failure
and an existing account with the same email yield failure with no commit;
otherwise the first-ever row becomes a verified ADMIN with no token, and
any later row becomes an unverified ANONYMOUS with the fresh token and a
dispatched verification email. -/
def create (db : List User) (inp : UserCreateInput) (tape : List String)
    (tok : String) (newId : Nat) : CreateOutcome :=
  if !validUserCreate inp then ⟨none, db, false⟩ else
  match fetchByEmail db inp.email with
  | some _ => ⟨none, db, false⟩
  | none =>
    match pickNickname db tape with
    | none => ⟨none, db, false⟩
    | some nick =>
      let base := mkNewUser newId inp nick
      if db.length == 0 then
        let u := { base with role := UserRole.ADMIN, email_verified := true }
        ⟨some u, db ++ [u], false⟩
      else
        let u := { base with role := UserRole.ANONYMOUS, verification_token := some tok }
        ⟨some u, db ++ [u], true⟩

/-- Value supplied for one of the four structured JSONB fields in an update
payload: either a native structured value or a plain string
(user_service.py lines 92-101 inspect for both shapes). -/
inductive JsonInput where
  | native (xs : List String)
  | str (s : String)
deriving DecidableEq, Repr

/-- Input accepted by the UserUpdate schema restricted to the profile
columns plus profile_completion (inherited from UserBase, user_schemas.py
line 44). A field at none is absent from the payload (exclude_unset).
The email, nickname and role fields of UserUpdate touch no completion
field and no claim, and are omitted; UserUpdate declares no password
field, so the password branch of update is unreachable and omitted. -/
structure UserUpdatePatch where
  first_name : Option String
  last_name : Option String
  bio : Option String
  profile_picture_url : Option String
  linkedin_profile_url : Option String
  github_profile_url : Option String
  twitter_profile_url : Option String
  personal_website_url : Option String
  phone_number : Option String
  date_of_birth : Option Nat
  location : Option String
  skills : Option JsonInput
  interests : Option JsonInput
  education : Option JsonInput
  work_experience : Option JsonInput
  preferred_language : Option String
  timezone : Option String
  profile_completion : Option Int
deriving DecidableEq, Repr

/-- The patch with no field supplied. -/
def emptyPatch : UserUpdatePatch :=
  { first_name := none, last_name := none, bio := none
    profile_picture_url := none, linkedin_profile_url := none
    github_profile_url := none, twitter_profile_url := none
    personal_website_url := none, phone_number := none
    date_of_birth := none, location := none, skills := none
    interests := none, education := none, work_experience := none
    preferred_language := none, timezone := none, profile_completion := none }

/-- Python truthiness of a raw structured-field payload value. -/
def jsonInputTruthy : JsonInput → Bool
  | .native xs => !xs.isEmpty
  | .str s => !s.isEmpty

/-- Truthiness of a provided optional value, false when absent. -/
def optTruthy (f : α → Bool) : Option α → Bool
  | none => false
  | some a => f a

/-- The UserUpdate root validator check_at_least_one_value
(user_schemas.py lines 95-99, pre=True): at least one raw payload value is
truthy. -/
def patchAnyTruthy (p : UserUpdatePatch) : Bool :=
  optTruthy (fun s => !s.isEmpty) p.first_name ||
  optTruthy (fun s => !s.isEmpty) p.last_name ||
  optTruthy (fun s => !s.isEmpty) p.bio ||
  optTruthy (fun s => !s.isEmpty) p.profile_picture_url ||
  optTruthy (fun s => !s.isEmpty) p.linkedin_profile_url ||
  optTruthy (fun s => !s.isEmpty) p.github_profile_url ||
  optTruthy (fun s => !s.isEmpty) p.twitter_profile_url ||
  optTruthy (fun s => !s.isEmpty) p.personal_website_url ||
  optTruthy (fun s => !s.isEmpty) p.phone_number ||
  optTruthy (fun _ => true) p.date_of_birth ||
  optTruthy (fun s => !s.isEmpty) p.location ||
  optTruthy jsonInputTruthy p.skills ||
  optTruthy jsonInputTruthy p.interests ||
  optTruthy jsonInputTruthy p.education ||
  optTruthy jsonInputTruthy p.work_experience ||
  optTruthy (fun s => !s.isEmpty) p.preferred_language ||
  optTruthy (fun s => !s.isEmpty) p.timezone ||
  optTruthy (fun n : Int => !(n == 0)) p.profile_completion

/-- Pydantic type validation of one structured field: the declared type is
Optional list (user_schemas.py lines 83-90), and pydantic does not coerce
a plain string to a list, so a supplied string value fails validation. -/
def structuredFieldNative : Option JsonInput → Bool
  | some (.str _) => false
  | _ => true

/-- UserUpdate validation: the pre root validator plus the per-field type
check on the four structured fields. Format validation of URL fields is
abstracted away as in `validUserCreate`. -/
def validUserUpdate (p : UserUpdatePatch) : Bool :=
  patchAnyTruthy p &&
  (structuredFieldNative p.skills && structuredFieldNative p.interests &&
   structuredFieldNative p.education && structuredFieldNative p.work_experience)

/-- The JSON-field handling of update (user_service.py lines 91-101): a
string value is parsed with json.loads, and a string that fails to parse is
wrapped into a single-item list; non-string values pass through. The
json.loads capability is the explicit `parse` argument. -/
def normalizeJsonField (parse : String → Option (List String)) :
    Option JsonInput → Option (List String)
  | none => none
  | some (.native xs) => some xs
  | some (.str s) =>
    match parse s with
    | some v => some v
    | none => some [s]

/-- One column of the UPDATE statement: a supplied value replaces the
stored one, an absent field keeps it. -/
def patchField (new : Option α) (old : Option α) : Option α :=
  match new with
  | some v => some v
  | none => old

/-- Effect of the UPDATE ... WHERE id statement of update
(user_service.py line 103) on one matching row. -/
def applyPatchToUser (parse : String → Option (List String)) (u : User)
    (p : UserUpdatePatch) : User :=
  { u with
    first_name := patchField p.first_name u.first_name
    last_name := patchField p.last_name u.last_name
    bio := patchField p.bio u.bio
    profile_picture_url := patchField p.profile_picture_url u.profile_picture_url
    linkedin_profile_url := patchField p.linkedin_profile_url u.linkedin_profile_url
    github_profile_url := patchField p.github_profile_url u.github_profile_url
    twitter_profile_url := patchField p.twitter_profile_url u.twitter_profile_url
    personal_website_url := patchField p.personal_website_url u.personal_website_url
    phone_number := patchField p.phone_number u.phone_number
    date_of_birth := patchField p.date_of_birth u.date_of_birth
    location := patchField p.location u.location
    skills := patchField (normalizeJsonField parse p.skills) u.skills
    interests := patchField (normalizeJsonField parse p.interests) u.interests
    education := patchField (normalizeJsonField parse p.education) u.education
    work_experience := patchField (normalizeJsonField parse p.work_experience) u.work_experience
    preferred_language := patchField p.preferred_language u.preferred_language
    timezone := patchField p.timezone u.timezone
    profile_completion := patchField p.profile_completion u.profile_completion }

/-- The committed UPDATE ... WHERE id statement over the whole table. -/
def applyUpdateQuery (parse : String → Option (List String)) (db : List User)
    (user_id : Nat) (p : UserUpdatePatch) : List User :=
  db.map (fun r => if r.id == user_id then applyPatchToUser parse r p else r)

/-- UserService.update (user_service.py lines 83-119): validate the patch
(any validation error is caught and yields failure with no commit), apply
the committed UPDATE statement, re-fetch the row, recompute and commit the
profile completion, and return the updated row; failure when the row does
not exist. -/
def update (parse : String → Option (List String)) (db : List User)
    (user_id : Nat) (p : UserUpdatePatch) : Option User × List User :=
  if !validUserUpdate p then (none, db)
  else
    match fetchById (applyUpdateQuery parse db user_id p) user_id with
    | some u =>
      (some (recomputeCompletion u),
       updateRow (applyUpdateQuery parse db user_id p) (recomputeCompletion u))
    | none => (none, applyUpdateQuery parse db user_id p)

/-- The section_field_map filter of update_profile_section
(user_service.py lines 330-351): keep only the fields whitelisted for the
named section, drop everything else (profile_completion is whitelisted in
no section); an unrecognized section name is invalid. -/
def filterSectionPatch (sectionName : String) (d : UserUpdatePatch) :
    Option UserUpdatePatch :=
  if sectionName == "basic_info" then
    some { emptyPatch with
      first_name := d.first_name, last_name := d.last_name, bio := d.bio
      profile_picture_url := d.profile_picture_url
      phone_number := d.phone_number, date_of_birth := d.date_of_birth
      location := d.location }
  else if sectionName == "professional_info" then
    some { emptyPatch with
      linkedin_profile_url := d.linkedin_profile_url
      github_profile_url := d.github_profile_url
      twitter_profile_url := d.twitter_profile_url
      personal_website_url := d.personal_website_url
      skills := d.skills, work_experience := d.work_experience
      education := d.education }
  else if sectionName == "preferences" then
    some { emptyPatch with
      interests := d.interests, preferred_language := d.preferred_language
      timezone := d.timezone }
  else none

/-- UserService.update_profile_section (user_service.py lines 311-358):
fail when the row is absent, fail on an invalid section name, otherwise
delegate the filtered data to update. -/
def update_profile_section (parse : String → Option (List String))
    (db : List User) (user_id : Nat) (sectionName : String) (d : UserUpdatePatch) :
    Option User × List User :=
  match fetchById db user_id with
  | none => (none, db)
  | some _ =>
    match filterSectionPatch sectionName d with
    | none => (none, db)
    | some p => update parse db user_id p

/-- UserService.increment_failed_login_attempts (user_service.py lines
422-428): bump the counter and lock the account once the counter reaches
the configured maximum `K` (settings.max_login_attempts, configuration the
spec lists in section 6). -/
def increment_failed_login_attempts (K : Nat) (u : User) : User :=
  let n := u.failed_login_attempts + 1
  { u with failed_login_attempts := n
           is_locked := if K ≤ n then true else u.is_locked }

/-- UserService.login_user (user_service.py lines 142-158): no session when
the account is absent, unverified or locked; on a password match reset the
failed counter, stamp the login time and commit; on a mismatch commit the
incremented counter (with the lockout transition) and return no session. -/
def login_user (K : Nat) (now : Nat) (db : List User) (email password : String) :
    Option User × List User :=
  match fetchByEmail db email with
  | none => (none, db)
  | some u =>
    if u.email_verified == false then (none, db)
    else if u.is_locked then (none, db)
    else if verify_password password u.hashed_password then
      let u2 := { u with failed_login_attempts := 0, last_login_at := some now }
      (some u2, updateRow db u2)
    else
      (none, updateRow db (increment_failed_login_attempts K u))

/-- UserService.unlock_user_account (user_service.py lines 204-213):
succeeds only for an existing, currently locked account; clears the lock
and the failed counter and commits. -/
def unlock_user_account (db : List User) (user_id : Nat) : Bool × List User :=
  match fetchById db user_id with
  | some u =>
    if u.is_locked then
      let u2 := { u with is_locked := false, failed_login_attempts := 0 }
      (true, updateRow db u2)
    else (false, db)
  | none => (false, db)

/-- UserService.verify_email_with_token (user_service.py lines 179-189):
succeeds exactly when the account exists and its stored token equals the
supplied one; on success marks the email verified, clears the token,
promotes the role to AUTHENTICATED and commits; otherwise no commit. -/
def verify_email_with_token (db : List User) (user_id : Nat) (token : String) :
    Bool × List User :=
  match fetchById db user_id with
  | some u =>
    if u.verification_token == some token then
      let u2 := { u with email_verified := true, verification_token := none
                         role := UserRole.AUTHENTICATED }
      (true, updateRow db u2)
    else (false, db)
  | none => (false, db)

/-- UserService.get_profile_completion (user_service.py lines 287-309):
fail when the row is absent; otherwise recompute the completion on the
fetched object and return the details built from it. The source mutates
only the in-memory object and issues no session.add or commit in this
method, so the committed row list is returned unchanged. -/
def get_profile_completion (db : List User) (user_id : Nat) :
    Option ProfileCompletionDetails × List User :=
  match fetchById db user_id with
  | none => (none, db)
  | some u => (some (get_profile_completion_details (recomputeCompletion u)), db)

/-- Outcome of UserService.update_professional_status: the returned
account, the committed rows and whether a notification send was attempted
through the email service. -/
structure ProfStatusOutcome where
  user : Option User
  db : List User
  notificationAttempted : Bool
deriving DecidableEq, Repr

/-- UserService.update_professional_status (user_service.py lines 430-471):
fail when the row is absent; compute should-notify as (currently not
professional) and (new flag true); apply the status change with its
timestamp and commit; then attempt the notification only if should-notify
holds and an email service was supplied. A failing send is caught and
logged inside the method (the `notificationFails` input has no effect on
the returned user or the committed rows). -/
def update_professional_status (db : List User) (user_id : Nat)
    (is_professional : Bool) (hasEmailService : Bool)
    (notificationFails : Bool) (now : Nat) : ProfStatusOutcome :=
  match fetchById db user_id with
  | none => ⟨none, db, false⟩
  | some u =>
    let send_notification := (!u.is_professional) && is_professional
    let u2 := u.updateProfessionalStatus is_professional now
    ⟨some u2, updateRow db u2, send_notification && hasEmailService⟩

/-- One profile-field assignment fills a subset of the fields another
fills: pointwise over the fixed 17 truthiness flags, every flag set in the
first is set in the second. -/
def flagsSubset (u v : User) : Prop :=
  ∀ p ∈ (fieldFlags u).zip (fieldFlags v), p.1 = true → p.2 = true

instance (u v : User) : Decidable (flagsSubset u v) := by
  unfold flagsSubset
  infer_instance

/-- The row state reached after `i` consecutive wrong-password attempts on
an initially unlocked account whose failed counter started at 0: counter
`i`, locked once the counter has reached the configured maximum `K`. -/
def lockState (u : User) (K i : Nat) : User :=
  { u with failed_login_attempts := i, is_locked := decide (K ≤ i) }

/-- `i` consecutive login_user calls with the same (wrong) password,
threaded through the committed row lists. -/
def wrongAttempts (K now : Nat) (db : List User) (email pw : String) : Nat → List User
  | 0 => db
  | i + 1 => (login_user K now (wrongAttempts K now db email pw i) email pw).2

/-! Concrete rows used by the witness theorems. -/

/-- A minimal concrete account row used as the base of witness databases. -/
def baseUser : User :=
  { id := 1
    nickname := "nick-1"
    email := "alice@example.com"
    first_name := none
    last_name := none
    bio := none
    profile_picture_url := none
    linkedin_profile_url := none
    github_profile_url := none
    twitter_profile_url := none
    personal_website_url := none
    phone_number := none
    date_of_birth := none
    location := none
    skills := none
    interests := none
    education := none
    work_experience := none
    preferred_language := none
    timezone := none
    profile_completion := none
    role := UserRole.ANONYMOUS
    is_professional := false
    professional_status_updated_at := none
    last_login_at := none
    failed_login_attempts := 0
    is_locked := false
    verification_token := none
    email_verified := false
    hashed_password := hash_password "Right1!a" }

/-- Witness database for the email-verification claim: one account with a
pending verification token. -/
def dbC1 : List User := [{ baseUser with verification_token := some "tok123" }]

/-- Input used by the create witnesses: a fresh email and a password
satisfying the complexity policy, with no profile data supplied. -/
def baseCreateInput : UserCreateInput :=
  { email := "new@example.com"
    password := "Passw0rd!"
    role := UserRole.ANONYMOUS
    first_name := none
    last_name := none
    bio := none
    profile_picture_url := none
    linkedin_profile_url := none
    github_profile_url := none
    twitter_profile_url := none
    personal_website_url := none
    phone_number := none
    date_of_birth := none
    location := none
    skills := none
    interests := none
    education := none
    work_experience := none
    preferred_language := none
    timezone := none
    profile_completion := none }

/-- The account the first-ever create is expected to commit in the C3
witness. -/
def uC3admin : User :=
  { mkNewUser 7 baseCreateInput "nick-2" with role := UserRole.ADMIN, email_verified := true }

/-- The account a later create is expected to commit in the C3 witness. -/
def uC3anon : User :=
  { mkNewUser 7 baseCreateInput "nick-2" with role := UserRole.ANONYMOUS, verification_token := some "tok9" }

/-- Duplicate-email input for the C6 witness: same email as the stored
account. -/
def dupCreateInput : UserCreateInput := { baseCreateInput with email := "alice@example.com" }

/-- Create input carrying a caller-supplied profile_completion value, used
against claim C4. -/
def inpC4 : UserCreateInput := { baseCreateInput with profile_completion := some 85 }

/-- The committed row expected from the C4 witness update. -/
def uC4after : User := recomputeCompletion { baseUser with first_name := some "Zed" }

/-- Stored row for the C9 counterexample: one filled profile field but a
stale stored completion of 0. -/
def uC9 : User := { baseUser with first_name := some "Ann", profile_completion := some 0 }

/-! General lemmas about the row store. -/

theorem map_id_updateRow (db : List User) (w : User) :
    (updateRow db w).map User.id = db.map User.id := by
  induction db with
  | nil => rfl
  | cons h t ih =>
    simp only [updateRow, List.map_cons] at ih ⊢
    refine congrArg₂ _ ?_ ih
    by_cases hb : h.id == w.id
    · simp only [hb, if_true]
      exact (beq_iff_eq.mp hb).symm
    · simp [hb]

theorem idsNodup_updateRow {db : List User} (w : User) (hN : idsNodup db) :
    idsNodup (updateRow db w) := by
  unfold idsNodup at hN ⊢
  rw [map_id_updateRow]
  exact hN

theorem find?_updateRow (l : List User) (w v : User) (p : User → Bool)
    (hf : l.find? p = some v) (hvw : v.id = w.id) (hpw : p w = true)
    (hprev : ∀ r ∈ l, p r = false → r.id ≠ w.id) :
    (updateRow l w).find? p = some w := by
  induction l with
  | nil => simp at hf
  | cons h t ih =>
    by_cases hph : p h
    · rw [List.find?_cons_of_pos _ hph] at hf
      have hv : v = h := by injection hf with h1; exact h1.symm
      have hhw : (h.id == w.id) = true := by
        subst hv; exact beq_iff_eq.mpr hvw
      show List.find? p ((if h.id == w.id then w else h) :: updateRow t w) = some w
      rw [hhw]
      simp only [if_true]
      exact List.find?_cons_of_pos _ hpw
    · have hne : h.id ≠ w.id :=
        hprev h (List.mem_cons_self h t) (Bool.eq_false_iff.mpr hph)
      have hhw : (h.id == w.id) = false := beq_eq_false_iff_ne.mpr hne
      rw [List.find?_cons_of_neg _ hph] at hf
      show List.find? p ((if h.id == w.id then w else h) :: updateRow t w) = some w
      rw [hhw]
      simp only [Bool.false_eq_true, if_false]
      rw [List.find?_cons_of_neg _ hph]
      exact ih hf fun r hr => hprev r (List.mem_cons_of_mem h hr)

theorem fetchByEmail_some_email {db : List User} {e : String} {v : User}
    (hf : fetchByEmail db e = some v) : v.email = e := by
  have := List.find?_some hf
  simpa using this

theorem fetchByEmail_mem {db : List User} {e : String} {v : User}
    (hf : fetchByEmail db e = some v) : v ∈ db :=
  List.mem_of_find?_eq_some hf

theorem fetchById_some_id {db : List User} {i : Nat} {v : User}
    (hf : fetchById db i = some v) : v.id = i := by
  have := List.find?_some hf
  simpa using this

theorem fetchByEmail_updateRow {db : List User} {e : String} {v : User} (w : User)
    (hN : idsNodup db) (hf : fetchByEmail db e = some v)
    (hid : w.id = v.id) (hem : w.email = v.email) :
    fetchByEmail (updateRow db w) e = some w := by
  refine find?_updateRow db w v _ hf hid.symm ?_ ?_
  · have hve : v.email = e := fetchByEmail_some_email hf
    simp [hem, hve]
  · intro r hr hpr hEq
    have hrv : r = v :=
      List.inj_on_of_nodup_map hN hr (fetchByEmail_mem hf) (hEq.trans hid)
    have hve : v.email = e := fetchByEmail_some_email hf
    rw [hrv] at hpr
    simp [hve] at hpr

theorem fetchById_updateRow {db : List User} {i : Nat} {v : User} (w : User)
    (hf : fetchById db i = some v) (hid : w.id = v.id) :
    fetchById (updateRow db w) i = some w := by
  have hv : v.id = i := fetchById_some_id hf
  refine find?_updateRow db w v _ hf hid.symm ?_ ?_
  · simp [hid, hv]
  · intro r hr hpr hEq
    rw [hEq, hid, hv] at hpr
    simp at hpr

theorem fetchById_of_mem_nodup {db : List User} {v : User}
    (hN : idsNodup db) (hv : v ∈ db) : fetchById db v.id = some v := by
  induction db with
  | nil => simp at hv
  | cons h t ih =>
    unfold idsNodup at hN
    simp only [List.map_cons, List.nodup_cons] at hN
    rcases List.mem_cons.mp hv with hvh | hvt
    · subst hvh
      unfold fetchById
      rw [List.find?_cons_of_pos]
      simp
    · have hne : (h.id == v.id) = false := by
        refine beq_eq_false_iff_ne.mpr ?_
        intro hEq
        exact hN.1 (hEq ▸ List.mem_map_of_mem User.id hvt)
      unfold fetchById
      rw [List.find?_cons_of_neg _ (by simp [hne])]
      exact ih hN.2 hvt

/-- Equation for verify_email_with_token on a matching token. -/
theorem verify_email_eq_success {db : List User} {user_id : Nat} {token : String}
    {u : User} (hfetch : fetchById db user_id = some u)
    (htok : u.verification_token = some token) :
    verify_email_with_token db user_id token =
      (true, updateRow db { u with email_verified := true,
                                   verification_token := none,
                                   role := UserRole.AUTHENTICATED }) := by
  unfold verify_email_with_token
  rw [hfetch]
  simp [htok]

/-- Equation for verify_email_with_token on a token mismatch. -/
theorem verify_email_eq_mismatch {db : List User} {user_id : Nat} {token : String}
    {u : User} (hfetch : fetchById db user_id = some u)
    (htok : u.verification_token ≠ some token) :
    verify_email_with_token db user_id token = (false, db) := by
  unfold verify_email_with_token
  rw [hfetch]
  simp [htok]

/-- Equation for verify_email_with_token on an absent account. -/
theorem verify_email_eq_absent {db : List User} {user_id : Nat} {token : String}
    (hfetch : fetchById db user_id = none) :
    verify_email_with_token db user_id token = (false, db) := by
  unfold verify_email_with_token
  rw [hfetch]

/-- Claim C1: verify_email_with_token succeeds exactly when the account
exists and its stored token equals the supplied one; any mismatch
(including an account with no token) fails and leaves the rows unchanged;
success marks the email verified, clears the token, promotes the role to
AUTHENTICATED and persists the row; a repeated call with the same token
then fails. -/
theorem verify_email_with_token_spec (db : List User) (user_id : Nat) (token : String) :
    ((verify_email_with_token db user_id token).1 = true ↔
      ∃ u, fetchById db user_id = some u ∧ u.verification_token = some token) ∧
    ((verify_email_with_token db user_id token).1 = false →
      (verify_email_with_token db user_id token).2 = db) ∧
    (∀ u, fetchById db user_id = some u → u.verification_token = some token →
      fetchById (verify_email_with_token db user_id token).2 user_id =
        some { u with email_verified := true, verification_token := none,
                      role := UserRole.AUTHENTICATED } ∧
      (verify_email_with_token (verify_email_with_token db user_id token).2
          user_id token).1 = false) := by
  rcases hfetch : fetchById db user_id with _ | u
  · have he : verify_email_with_token db user_id token = (false, db) :=
      verify_email_eq_absent hfetch
    refine ⟨?_, fun _ => by rw [he], ?_⟩
    · rw [he]
      constructor
      · intro h
        exact absurd h (by simp)
      · rintro ⟨u', hu', -⟩
        exact Option.noConfusion hu'
    · intro u' hu'
      exact absurd hu' (by simp)
  · by_cases htok : u.verification_token = some token
    · have he := verify_email_eq_success hfetch htok
      have hf2 : fetchById (verify_email_with_token db user_id token).2 user_id =
          some { u with email_verified := true, verification_token := none,
                        role := UserRole.AUTHENTICATED } := by
        rw [he]
        exact fetchById_updateRow _ hfetch rfl
      refine ⟨?_, ?_, ?_⟩
      · rw [he]
        exact ⟨fun _ => ⟨u, rfl, htok⟩, fun _ => rfl⟩
      · intro hfalse
        rw [he] at hfalse
        exact absurd hfalse (by simp)
      · intro u' hu' _
        injection hu' with hu'
        subst hu'
        refine ⟨hf2, ?_⟩
        rw [verify_email_eq_mismatch hf2 (by simp)]
    · have he := verify_email_eq_mismatch hfetch htok
      refine ⟨?_, fun _ => by rw [he], ?_⟩
      · rw [he]
        constructor
        · intro h
          exact absurd h (by simp)
        · rintro ⟨u', hu', ht'⟩
          injection hu' with hu'
          subst hu'
          exact absurd ht' htok
      · intro u' hu' ht'
        injection hu' with hu'
        subst hu'
        exact absurd ht' htok

/-- Witness for claim C1 on a concrete database: the matching token
succeeds and promotes the role, a wrong token changes nothing, and the
repeated call fails. -/
theorem verify_email_with_token_witness :
    (verify_email_with_token dbC1 1 "tok123").1 = true ∧
    (verify_email_with_token dbC1 1 "bad").2 = dbC1 ∧
    (fetchById (verify_email_with_token dbC1 1 "tok123").2 1).map User.role =
      some UserRole.AUTHENTICATED ∧
    (verify_email_with_token (verify_email_with_token dbC1 1 "tok123").2 1 "tok123").1
      = false := by
  have H := verify_email_with_token_spec dbC1 1 "tok123"
  have H2 := verify_email_with_token_spec dbC1 1 "bad"
  obtain ⟨hpersist, hrepeat⟩ :=
    H.2.2 { baseUser with verification_token := some "tok123" } rfl rfl
  refine ⟨?_, ?_, ?_, hrepeat⟩
  · exact H.1.mpr ⟨{ baseUser with verification_token := some "tok123" }, rfl, rfl⟩
  · exact H2.2.1 rfl
  · rw [hpersist]
    rfl

/-- Claim C5: update_professional_status fails with not-found and no
notification when the account is absent; a notification is attempted
exactly on an upgrade transition (current flag false, new flag true) with
a notifier supplied; the status change and its timestamp are committed and
the committed outcome is independent of whether the notification send
fails. -/
theorem update_professional_status_spec (db : List User) (user_id : Nat)
    (flag hasService fails : Bool) (now : Nat) :
    (fetchById db user_id = none →
      update_professional_status db user_id flag hasService fails now =
        ⟨none, db, false⟩) ∧
    (∀ u, fetchById db user_id = some u →
      (update_professional_status db user_id flag hasService fails now).user =
        some (u.updateProfessionalStatus flag now) ∧
      (u.updateProfessionalStatus flag now).is_professional = flag ∧
      (u.updateProfessionalStatus flag now).professional_status_updated_at = some now ∧
      fetchById (update_professional_status db user_id flag hasService fails now).db
        user_id = some (u.updateProfessionalStatus flag now) ∧
      (update_professional_status db user_id flag hasService fails now).notificationAttempted =
        ((!u.is_professional) && flag && hasService)) ∧
    update_professional_status db user_id flag hasService true now =
      update_professional_status db user_id flag hasService false now := by
  refine ⟨?_, ?_, rfl⟩
  · intro hfetch
    unfold update_professional_status
    rw [hfetch]
  · intro u hfetch
    have he : update_professional_status db user_id flag hasService fails now =
        ⟨some (u.updateProfessionalStatus flag now),
         updateRow db (u.updateProfessionalStatus flag now),
         (!u.is_professional) && flag && hasService⟩ := by
      unfold update_professional_status
      rw [hfetch]
    refine ⟨by rw [he], rfl, rfl, ?_, by rw [he]⟩
    rw [he]
    exact fetchById_updateRow _ hfetch rfl

/-- Witness for claim C5 on a concrete database: absent id fails with no
notification, an upgrade with a notifier attempts exactly one send, a
downgrade attempts none, and the new flag is committed. -/
theorem update_professional_status_witness :
    update_professional_status [baseUser] 2 true true false 5 = ⟨none, [baseUser], false⟩ ∧
    (update_professional_status [baseUser] 1 true true true 5).notificationAttempted = true ∧
    (update_professional_status [baseUser] 1 false true false 5).notificationAttempted = false ∧
    (fetchById (update_professional_status [baseUser] 1 true true true 5).db 1).map
      User.is_professional = some true := by
  have H := update_professional_status_spec [baseUser] 2 true true false 5
  have H1 := update_professional_status_spec [baseUser] 1 true true true 5
  have H0 := update_professional_status_spec [baseUser] 1 false true false 5
  obtain ⟨-, -, -, hpersist, hnote⟩ := H1.2.1 baseUser rfl
  obtain ⟨-, -, -, -, hnote0⟩ := H0.2.1 baseUser rfl
  refine ⟨H.1 rfl, ?_, ?_, ?_⟩
  · rw [hnote]
    rfl
  · rw [hnote0]
    rfl
  · rw [hpersist]
    rfl

/-- Equation for create when validation rejects the input. -/
theorem create_eq_invalid {db : List User} {inp : UserCreateInput}
    {tape : List String} {tok : String} {newId : Nat}
    (hvc : validUserCreate inp = false) :
    create db inp tape tok newId = ⟨none, db, false⟩ := by
  unfold create
  rw [hvc]
  rfl

/-- Equation for create when an account with the same email exists. -/
theorem create_eq_duplicate {db : List User} {inp : UserCreateInput}
    {tape : List String} {tok : String} {newId : Nat} {u0 : User}
    (hvc : validUserCreate inp = true)
    (hfe : fetchByEmail db inp.email = some u0) :
    create db inp tape tok newId = ⟨none, db, false⟩ := by
  unfold create
  rw [hvc, hfe]
  rfl

/-- Equation for create when the nickname supply has no fresh name. -/
theorem create_eq_nonick {db : List User} {inp : UserCreateInput}
    {tape : List String} {tok : String} {newId : Nat}
    (hvc : validUserCreate inp = true)
    (hfe : fetchByEmail db inp.email = none)
    (hnick : pickNickname db tape = none) :
    create db inp tape tok newId = ⟨none, db, false⟩ := by
  unfold create
  rw [hvc, hfe, hnick]
  rfl

/-- Equation for create of the first-ever account. -/
theorem create_eq_first {db : List User} {inp : UserCreateInput}
    {tape : List String} {tok : String} {newId : Nat} {nick : String}
    (hvc : validUserCreate inp = true)
    (hfe : fetchByEmail db inp.email = none)
    (hnick : pickNickname db tape = some nick)
    (hlen : db.length = 0) :
    create db inp tape tok newId =
      ⟨some { mkNewUser newId inp nick with role := UserRole.ADMIN,
                                            email_verified := true },
       db ++ [{ mkNewUser newId inp nick with role := UserRole.ADMIN,
                                              email_verified := true }],
       false⟩ := by
  unfold create
  rw [hvc, hfe, hnick]
  simp [hlen]

/-- Equation for create of a later account. -/
theorem create_eq_later {db : List User} {inp : UserCreateInput}
    {tape : List String} {tok : String} {newId : Nat} {nick : String}
    (hvc : validUserCreate inp = true)
    (hfe : fetchByEmail db inp.email = none)
    (hnick : pickNickname db tape = some nick)
    (hlen : db.length ≠ 0) :
    create db inp tape tok newId =
      ⟨some { mkNewUser newId inp nick with role := UserRole.ANONYMOUS,
                                            verification_token := some tok },
       db ++ [{ mkNewUser newId inp nick with role := UserRole.ANONYMOUS,
                                              verification_token := some tok }],
       true⟩ := by
  unfold create
  rw [hvc, hfe, hnick]
  simp [hlen]

/-- Claim C3: a successful create on an empty directory yields a verified
ADMIN with no verification token and no dispatched email; a successful
create on a non-empty directory yields an unverified ANONYMOUS with the
fresh token and a dispatched verification email. -/
theorem create_first_admin_spec (db : List User) (inp : UserCreateInput)
    (tape : List String) (tok : String) (newId : Nat) (u : User)
    (h : (create db inp tape tok newId).user = some u) :
    (db.length = 0 →
      u.role = UserRole.ADMIN ∧ u.email_verified = true ∧
      u.verification_token = none ∧
      (create db inp tape tok newId).emailSent = false) ∧
    (db.length ≠ 0 →
      u.role = UserRole.ANONYMOUS ∧ u.email_verified = false ∧
      u.verification_token = some tok ∧
      (create db inp tape tok newId).emailSent = true) := by
  rcases hvc : validUserCreate inp with _ | _
  · rw [create_eq_invalid hvc] at h
    exact absurd h (by simp)
  · rcases hfe : fetchByEmail db inp.email with _ | u0
    · rcases hnick : pickNickname db tape with _ | nick
      · rw [create_eq_nonick hvc hfe hnick] at h
        exact absurd h (by simp)
      · by_cases hlen : db.length = 0
        · rw [create_eq_first hvc hfe hnick hlen] at h ⊢
          injection h with h
          subst h
          exact ⟨fun _ => ⟨rfl, rfl, rfl, rfl⟩, fun hne => absurd hlen hne⟩
        · rw [create_eq_later hvc hfe hnick hlen] at h ⊢
          injection h with h
          subst h
          exact ⟨fun heq => absurd heq hlen, fun _ => ⟨rfl, rfl, rfl, rfl⟩⟩
    · rw [create_eq_duplicate hvc hfe] at h
      exact absurd h (by simp)

/-- Witness for claim C3: the first created account is a verified ADMIN
without token or email, and a create against a one-row directory yields an
unverified ANONYMOUS with the fresh token and a dispatched email. -/
theorem create_first_admin_witness :
    (create [] baseCreateInput ["nick-2"] "tok9" 7).user.map User.role =
      some UserRole.ADMIN ∧
    (create [] baseCreateInput ["nick-2"] "tok9" 7).user.map User.email_verified =
      some true ∧
    (create [] baseCreateInput ["nick-2"] "tok9" 7).emailSent = false ∧
    (create [baseUser] baseCreateInput ["nick-2"] "tok9" 7).user.map
      User.verification_token = some (some "tok9") ∧
    (create [baseUser] baseCreateInput ["nick-2"] "tok9" 7).emailSent = true := by
  have hu1 : (create [] baseCreateInput ["nick-2"] "tok9" 7).user = some uC3admin := by
    rfl
  have hu2 : (create [baseUser] baseCreateInput ["nick-2"] "tok9" 7).user = some uC3anon := by
    rfl
  have H1 := create_first_admin_spec [] baseCreateInput ["nick-2"] "tok9" 7 uC3admin hu1
  have H2 := create_first_admin_spec [baseUser] baseCreateInput ["nick-2"] "tok9" 7 uC3anon hu2
  obtain ⟨hrole, hver, htok, hmail⟩ := H1.1 rfl
  obtain ⟨hrole2, hver2, htok2, hmail2⟩ := H2.2 (by simp)
  refine ⟨?_, ?_, hmail, ?_, hmail2⟩
  · rw [hu1]
    exact congrArg some hrole
  · rw [hu1]
    exact congrArg some hver
  · rw [hu2]
    exact congrArg some htok2

/-- Claim C6: create against an email already present in the directory
fails, creates no account and leaves the stored rows (in particular the
existing row) unmodified, whether or not the rest of the input validates. -/
theorem create_duplicate_email_spec (db : List User) (inp : UserCreateInput)
    (tape : List String) (tok : String) (newId : Nat) (u0 : User)
    (hfe : fetchByEmail db inp.email = some u0) :
    create db inp tape tok newId = ⟨none, db, false⟩ := by
  rcases hvc : validUserCreate inp with _ | _
  · exact create_eq_invalid hvc
  · exact create_eq_duplicate hvc hfe

/-- Witness for claim C6: creating with the stored account's email fails
and leaves the single-row directory unchanged. -/
theorem create_duplicate_email_witness :
    create [baseUser] dupCreateInput ["nick-2"] "tok9" 7 = ⟨none, [baseUser], false⟩ :=
  create_duplicate_email_spec [baseUser] dupCreateInput ["nick-2"] "tok9" 7 baseUser rfl

/-- Equation for login_user on an absent account. -/
theorem login_eq_absent {K now : Nat} {db : List User} {email pw : String}
    (hfe : fetchByEmail db email = none) :
    login_user K now db email pw = (none, db) := by
  unfold login_user
  rw [hfe]

/-- Equation for login_user on an unverified account. -/
theorem login_eq_unverified {K now : Nat} {db : List User} {email pw : String}
    {u : User} (hfe : fetchByEmail db email = some u)
    (hv : u.email_verified = false) :
    login_user K now db email pw = (none, db) := by
  unfold login_user
  rw [hfe]
  simp [hv]

/-- Equation for login_user on a locked account. -/
theorem login_eq_locked {K now : Nat} {db : List User} {email pw : String}
    {u : User} (hfe : fetchByEmail db email = some u)
    (hv : u.email_verified = true) (hl : u.is_locked = true) :
    login_user K now db email pw = (none, db) := by
  unfold login_user
  rw [hfe]
  simp [hv, hl]

/-- Equation for login_user on a wrong password: the incremented counter
(with its lockout transition) is committed and no session is returned. -/
theorem login_eq_wrong {K now : Nat} {db : List User} {email pw : String}
    {u : User} (hfe : fetchByEmail db email = some u)
    (hv : u.email_verified = true) (hl : u.is_locked = false)
    (hw : verify_password pw u.hashed_password = false) :
    login_user K now db email pw =
      (none, updateRow db (increment_failed_login_attempts K u)) := by
  unfold login_user
  rw [hfe]
  simp [hv, hl, hw]

/-- Equation for login_user on a correct password: the counter is reset,
the login time stamped and the row committed. -/
theorem login_eq_right {K now : Nat} {db : List User} {email pw : String}
    {u : User} (hfe : fetchByEmail db email = some u)
    (hv : u.email_verified = true) (hl : u.is_locked = false)
    (hr : verify_password pw u.hashed_password = true) :
    login_user K now db email pw =
      (some { u with failed_login_attempts := 0, last_login_at := some now },
       updateRow db { u with failed_login_attempts := 0, last_login_at := some now }) := by
  unfold login_user
  rw [hfe]
  simp [hv, hl, hr]

/-- Claim C10: a login_user call that returns no session because the
account is absent, unverified or locked commits nothing, leaving every
counter unchanged; the counter is incremented (and committed) exactly when
the account exists, is verified, is unlocked and the password does not
match; a matching password resets the committed counter to 0. -/
theorem login_counter_frame_spec (K now : Nat) (db : List User) (email pw : String)
    (hN : idsNodup db) :
    (fetchByEmail db email = none → (login_user K now db email pw).2 = db) ∧
    (∀ u, fetchByEmail db email = some u → u.email_verified = false →
      (login_user K now db email pw).2 = db) ∧
    (∀ u, fetchByEmail db email = some u → u.email_verified = true →
      u.is_locked = true → (login_user K now db email pw).2 = db) ∧
    (∀ u, fetchByEmail db email = some u → u.email_verified = true →
      u.is_locked = false → verify_password pw u.hashed_password = false →
      (login_user K now db email pw).1 = none ∧
      fetchByEmail (login_user K now db email pw).2 email =
        some (increment_failed_login_attempts K u) ∧
      (increment_failed_login_attempts K u).failed_login_attempts =
        u.failed_login_attempts + 1) ∧
    (∀ u, fetchByEmail db email = some u → u.email_verified = true →
      u.is_locked = false → verify_password pw u.hashed_password = true →
      fetchByEmail (login_user K now db email pw).2 email =
        some { u with failed_login_attempts := 0, last_login_at := some now }) := by
  refine ⟨?_, ?_, ?_, ?_, ?_⟩
  · intro hfe
    rw [login_eq_absent hfe]
  · intro u hfe hv
    rw [login_eq_unverified hfe hv]
  · intro u hfe hv hl
    rw [login_eq_locked hfe hv hl]
  · intro u hfe hv hl hw
    rw [login_eq_wrong hfe hv hl hw]
    exact ⟨rfl, fetchByEmail_updateRow _ hN hfe rfl rfl, rfl⟩
  · intro u hfe hv hl hr
    rw [login_eq_right hfe hv hl hr]
    exact fetchByEmail_updateRow _ hN hfe rfl rfl

/-- Witness for claim C10 on concrete databases: no commit on the absent,
unverified and locked failure cases; the committed counter becomes 1 after
a wrong password on a verified unlocked account, and 0 after a correct
password. -/
theorem login_counter_frame_witness :
    (login_user 3 0 [baseUser] "zz@example.com" "Right1!a").2 = [baseUser] ∧
    (login_user 3 0 [baseUser] "alice@example.com" "Right1!a").2 = [baseUser] ∧
    (login_user 3 0 [{ baseUser with email_verified := true, is_locked := true }]
      "alice@example.com" "Right1!a").2 =
      [{ baseUser with email_verified := true, is_locked := true }] ∧
    (fetchByEmail (login_user 3 0 [{ baseUser with email_verified := true }]
      "alice@example.com" "bad").2 "alice@example.com").map
      User.failed_login_attempts = some 1 ∧
    (fetchByEmail (login_user 3 0 [{ baseUser with email_verified := true }]
      "alice@example.com" "Right1!a").2 "alice@example.com").map
      User.failed_login_attempts = some 0 := by
  have Ha := login_counter_frame_spec 3 0 [baseUser] "zz@example.com" "Right1!a" (by decide)
  have Hu := login_counter_frame_spec 3 0 [baseUser] "alice@example.com" "Right1!a" (by decide)
  have Hl := login_counter_frame_spec 3 0
    [{ baseUser with email_verified := true, is_locked := true }]
    "alice@example.com" "Right1!a" (by decide)
  have Hw := login_counter_frame_spec 3 0 [{ baseUser with email_verified := true }]
    "alice@example.com" "bad" (by decide)
  have Hr := login_counter_frame_spec 3 0 [{ baseUser with email_verified := true }]
    "alice@example.com" "Right1!a" (by decide)
  obtain ⟨-, hw2, -⟩ := Hw.2.2.2.1 { baseUser with email_verified := true } rfl rfl rfl (by rfl)
  have hr2 := Hr.2.2.2.2 { baseUser with email_verified := true } rfl rfl rfl (by rfl)
  refine ⟨Ha.1 rfl, Hu.2.1 baseUser rfl rfl, Hl.2.2.1 _ rfl rfl rfl, ?_, ?_⟩
  · rw [hw2]
    rfl
  · rw [hr2]
    rfl

/-- Counter invariant for repeated wrong-password attempts on a verified,
initially unlocked account with counter 0: after `i ≤ K` attempts the
committed row is exactly `lockState u K i` and the primary keys stay
unique. -/
theorem wrongAttempts_invariant (K now : Nat) (db : List User) (email pw : String)
    (u : User) (hK : 1 ≤ K) (hN : idsNodup db)
    (hf : fetchByEmail db email = some u)
    (hv : u.email_verified = true) (hl : u.is_locked = false)
    (h0 : u.failed_login_attempts = 0)
    (hw : verify_password pw u.hashed_password = false) :
    ∀ i, i ≤ K →
      fetchByEmail (wrongAttempts K now db email pw i) email = some (lockState u K i) ∧
      idsNodup (wrongAttempts K now db email pw i) := by
  intro i
  induction i with
  | zero =>
    intro _
    have hd : decide (K ≤ 0) = false := decide_eq_false (by omega)
    have h00 : lockState u K 0 = u := by
      unfold lockState
      rw [hd, ← h0, ← hl]
    constructor
    · show fetchByEmail db email = some (lockState u K 0)
      rw [h00]
      exact hf
    · exact hN
  | succ i ih =>
    intro hiK
    obtain ⟨hfi, hNi⟩ := ih (Nat.le_of_succ_le hiK)
    have hlock_i : (lockState u K i).is_locked = false := by
      show decide (K ≤ i) = false
      exact decide_eq_false (by omega)
    have hstep : increment_failed_login_attempts K (lockState u K i) =
        lockState u K (i + 1) := by
      unfold increment_failed_login_attempts lockState
      by_cases hc : K ≤ i + 1
      · simp [hc]
      · have hci : ¬ K ≤ i := by omega
        simp [hc, hci]
    have hle := @login_eq_wrong K now _ _ _ _ hfi hv hlock_i hw
    constructor
    · show fetchByEmail (login_user K now (wrongAttempts K now db email pw i) email pw).2
        email = some (lockState u K (i + 1))
      rw [hle]
      rw [← hstep]
      exact fetchByEmail_updateRow _ hNi hfi rfl rfl
    · show idsNodup (login_user K now (wrongAttempts K now db email pw i) email pw).2
      rw [hle]
      exact idsNodup_updateRow _ hNi

/-- Claim C2 (amended): for a verified, initially unlocked account with
counter 0 and configured maximum K at least 1, K consecutive
wrong-password login calls leave the committed account locked; while it is
locked a correct-password login still returns no session; after
unlock_user_account a correct-password login succeeds and both the
returned and the committed account carry counter 0. -/
theorem login_lockout_spec (K now1 now2 now3 : Nat) (db : List User)
    (email pwWrong pwRight : String) (u : User)
    (hK : 1 ≤ K) (hN : idsNodup db) (hf : fetchByEmail db email = some u)
    (hv : u.email_verified = true) (hl : u.is_locked = false)
    (h0 : u.failed_login_attempts = 0)
    (hw : verify_password pwWrong u.hashed_password = false)
    (hr : verify_password pwRight u.hashed_password = true) :
    fetchByEmail (wrongAttempts K now1 db email pwWrong K) email =
      some (lockState u K K) ∧
    (lockState u K K).is_locked = true ∧
    (login_user K now2 (wrongAttempts K now1 db email pwWrong K) email pwRight).1 =
      none ∧
    (unlock_user_account (wrongAttempts K now1 db email pwWrong K) u.id).1 = true ∧
    (∃ w, (login_user K now3
        (unlock_user_account (wrongAttempts K now1 db email pwWrong K) u.id).2
        email pwRight).1 = some w ∧
      w.failed_login_attempts = 0 ∧
      fetchByEmail (login_user K now3
        (unlock_user_account (wrongAttempts K now1 db email pwWrong K) u.id).2
        email pwRight).2 email = some w) := by
  obtain ⟨hfK, hNK⟩ :=
    wrongAttempts_invariant K now1 db email pwWrong u hK hN hf hv hl h0 hw K le_rfl
  have hlocked : (lockState u K K).is_locked = true := by
    show decide (K ≤ K) = true
    simp
  have h3 : (login_user K now2 (wrongAttempts K now1 db email pwWrong K) email
      pwRight).1 = none := by
    rw [login_eq_locked hfK hv hlocked]
  have hfid : fetchById (wrongAttempts K now1 db email pwWrong K) u.id =
      some (lockState u K K) :=
    fetchById_of_mem_nodup hNK (fetchByEmail_mem hfK)
  have hunlock : unlock_user_account (wrongAttempts K now1 db email pwWrong K) u.id =
      (true, updateRow (wrongAttempts K now1 db email pwWrong K)
        { lockState u K K with is_locked := false, failed_login_attempts := 0 }) := by
    unfold unlock_user_account
    rw [hfid]
    simp [hlocked]
  have hfU : fetchByEmail (unlock_user_account
      (wrongAttempts K now1 db email pwWrong K) u.id).2 email =
      some { lockState u K K with is_locked := false, failed_login_attempts := 0 } := by
    rw [hunlock]
    exact fetchByEmail_updateRow _ hNK hfK rfl rfl
  have hNU : idsNodup (unlock_user_account
      (wrongAttempts K now1 db email pwWrong K) u.id).2 := by
    rw [hunlock]
    exact idsNodup_updateRow _ hNK
  have hfinal := @login_eq_right K now3 _ _ _ _ hfU hv rfl hr
  refine ⟨hfK, hlocked, h3, by rw [hunlock], ?_⟩
  refine ⟨_, by rw [hfinal], rfl, ?_⟩
  rw [hfinal]
  exact fetchByEmail_updateRow _ hNU hfU rfl rfl

/-- Witness for the amended claim C2 on a concrete database with K = 2: the
second wrong attempt locks the account, the correct password then fails,
and after unlocking it succeeds with counter 0. -/
theorem login_lockout_witness :
    fetchByEmail (wrongAttempts 2 0 [{ baseUser with email_verified := true }]
      "alice@example.com" "bad" 2) "alice@example.com" =
      some (lockState { baseUser with email_verified := true } 2 2) ∧
    (lockState { baseUser with email_verified := true } 2 2).is_locked = true ∧
    (login_user 2 1 (wrongAttempts 2 0 [{ baseUser with email_verified := true }]
      "alice@example.com" "bad" 2) "alice@example.com" "Right1!a").1 = none ∧
    (unlock_user_account (wrongAttempts 2 0 [{ baseUser with email_verified := true }]
      "alice@example.com" "bad" 2) 1).1 = true := by
  have H := login_lockout_spec 2 0 1 2 [{ baseUser with email_verified := true }]
    "alice@example.com" "bad" "Right1!a" { baseUser with email_verified := true }
    (by omega) (by decide) rfl rfl rfl rfl (by rfl) (by rfl)
  exact ⟨H.1, H.2.1, H.2.2.1, H.2.2.2.1⟩

/-- Counterexample to claim C2 as stated: it quantifies over every account
with counter 0, but for an account whose email is not verified a
wrong-password login returns early without incrementing, so with K = 1 the
K-th wrong attempt leaves is_locked false, not true. -/
theorem login_lockout_counterexample :
    baseUser.failed_login_attempts = 0 ∧
    baseUser.is_locked = false ∧
    baseUser.email_verified = false ∧
    verify_password "bad" baseUser.hashed_password = false ∧
    (fetchByEmail (wrongAttempts 1 0 [baseUser] "alice@example.com" "bad" 1)
      "alice@example.com").map User.is_locked = some false := by
  refine ⟨rfl, rfl, rfl, by rfl, ?_⟩
  rfl

/-- Counting true entries is monotone under pointwise implication of two
boolean lists of equal length. -/
theorem count_true_le_of_zip : ∀ (xs ys : List Bool), xs.length = ys.length →
    (∀ p ∈ xs.zip ys, p.1 = true → p.2 = true) →
    xs.count true ≤ ys.count true := by
  intro xs
  induction xs with
  | nil =>
    intro ys _ _
    simp
  | cons a xs ih =>
    intro ys hlen h
    cases ys with
    | nil => simp at hlen
    | cons b ys =>
      have hab : a = true → b = true := h (a, b) (by simp)
      have htail : ∀ p ∈ xs.zip ys, p.1 = true → p.2 = true := by
        intro p hp
        exact h p (by simp [hp])
      have hlen2 : xs.length = ys.length := by simpa using hlen
      have hrec := ih ys hlen2 htail
      simp only [List.count_cons]
      cases a <;> cases b
      · simpa using hrec
      · simp only [beq_self_eq_true, beq_eq_false_iff_ne]
        simp
        omega
      · exact absurd (hab rfl) (by simp)
      · simp
        omega

/-- Rounding on the rationals is monotone. -/
theorem round_mono_rat {q r : ℚ} (h : q ≤ r) : round q ≤ round r := by
  rw [round_eq, round_eq]
  exact Int.floor_le_floor (by linarith)

/-- Rounding a nonnegative rational is nonnegative. -/
theorem round_nonneg_rat {q : ℚ} (h : 0 ≤ q) : 0 ≤ round q := by
  rw [round_eq]
  have h3 := Int.floor_le_floor (show (1:ℚ)/2 ≤ q + 1/2 by linarith)
  norm_num at h3
  exact h3

/-- Claim C7: the computed profile completion lies in [0, 100], is the
nearest integer to 100 * filled / 17 (stated as |34 * result - 200 *
filled| at most 17, the exact nearest-integer property; ties never occur
for denominator 17), and is monotonically non-decreasing when the set of
filled fields grows. -/
theorem calculate_profile_completion_spec (u v : User) :
    0 ≤ calculate_profile_completion u ∧
    calculate_profile_completion u ≤ 100 ∧
    |34 * calculate_profile_completion u - 200 * (filledFieldCount u : ℤ)| ≤ 17 ∧
    (flagsSubset u v →
      calculate_profile_completion u ≤ calculate_profile_completion v) := by
  have hk : filledFieldCount u ≤ 17 := by
    have h1 := List.count_le_length (a := true) (l := fieldFlags u)
    have h2 : (fieldFlags u).length = 17 := rfl
    unfold filledFieldCount
    omega
  have hq0 : (0:ℚ) ≤ (filledFieldCount u : ℚ) / 17 * 100 := by positivity
  have hq100 : ((filledFieldCount u : ℚ)) / 17 * 100 ≤ 100 := by
    have : (filledFieldCount u : ℚ) ≤ 17 := by exact_mod_cast hk
    linarith
  refine ⟨round_nonneg_rat hq0, ?_, ?_, ?_⟩
  · have h100 : round (100:ℚ) = 100 := by
      rw [round_eq]
      norm_num
    calc calculate_profile_completion u ≤ round (100:ℚ) := round_mono_rat hq100
    _ = 100 := h100
  · have habs := abs_sub_round ((filledFieldCount u : ℚ) / 17 * 100)
    have key : (34:ℚ) * (round ((filledFieldCount u : ℚ) / 17 * 100) : ℚ) -
        200 * (filledFieldCount u : ℚ) =
        34 * ((round ((filledFieldCount u : ℚ) / 17 * 100) : ℚ) -
          (filledFieldCount u : ℚ) / 17 * 100) := by
      ring
    have hq : |(34:ℚ) * (round ((filledFieldCount u : ℚ) / 17 * 100) : ℚ) -
        200 * (filledFieldCount u : ℚ)| ≤ 17 := by
      rw [key, abs_mul, abs_sub_comm]
      have h34 : |(34:ℚ)| = 34 := by norm_num
      rw [h34]
      linarith
    show |34 * round ((filledFieldCount u : ℚ) / 17 * 100) -
      200 * (filledFieldCount u : ℤ)| ≤ 17
    exact_mod_cast hq
  · intro hsub
    have hcount : filledFieldCount u ≤ filledFieldCount v :=
      count_true_le_of_zip (fieldFlags u) (fieldFlags v) rfl hsub
    apply round_mono_rat
    have h1 : (filledFieldCount u : ℚ) ≤ (filledFieldCount v : ℚ) := by
      exact_mod_cast hcount
    linarith

/-- Witness for claim C7 on concrete accounts: an empty profile scores 0,
filling one more field scores 6, the bounds hold and the monotonicity
instance is discharged on the concrete flag lists. -/
theorem calculate_profile_completion_witness :
    flagsSubset baseUser { baseUser with first_name := some "Ann" } ∧
    0 ≤ calculate_profile_completion baseUser ∧
    calculate_profile_completion { baseUser with first_name := some "Ann" } ≤ 100 ∧
    calculate_profile_completion baseUser ≤
      calculate_profile_completion { baseUser with first_name := some "Ann" } ∧
    calculate_profile_completion baseUser = 0 ∧
    calculate_profile_completion { baseUser with first_name := some "Ann" } = 6 := by
  have H := calculate_profile_completion_spec baseUser
    { baseUser with first_name := some "Ann" }
  have H2 := calculate_profile_completion_spec
    { baseUser with first_name := some "Ann" } baseUser
  have hsub : flagsSubset baseUser { baseUser with first_name := some "Ann" } := by
    decide
  refine ⟨hsub, H.1, H2.2.1, H.2.2.2 hsub, ?_, ?_⟩
  · show round (((fieldFlags baseUser).count true : ℚ) / 17 * 100) = 0
    norm_num [fieldFlags, baseUser, strTruthy, listTruthy, dateTruthy, round_eq]
  · show round (((fieldFlags { baseUser with first_name := some "Ann" }).count true : ℚ)
      / 17 * 100) = 6
    norm_num [fieldFlags, baseUser, strTruthy, listTruthy, dateTruthy, round_eq]

/-- Equation for update when validation rejects the patch. -/
theorem update_eq_invalid {parse : String → Option (List String)} {db : List User}
    {user_id : Nat} {p : UserUpdatePatch} (hv : validUserUpdate p = false) :
    update parse db user_id p = (none, db) := by
  unfold update
  rw [hv]
  rfl

/-- Equation for update when the row exists after the committed UPDATE. -/
theorem update_eq_found {parse : String → Option (List String)} {db : List User}
    {user_id : Nat} {p : UserUpdatePatch} {u : User}
    (hv : validUserUpdate p = true)
    (hfetch : fetchById (applyUpdateQuery parse db user_id p) user_id = some u) :
    update parse db user_id p =
      (some (recomputeCompletion u),
       updateRow (applyUpdateQuery parse db user_id p) (recomputeCompletion u)) := by
  unfold update
  rw [hv]
  simp [hfetch]

/-- Equation for update when the row does not exist. -/
theorem update_eq_notfound {parse : String → Option (List String)} {db : List User}
    {user_id : Nat} {p : UserUpdatePatch}
    (hv : validUserUpdate p = true)
    (hfetch : fetchById (applyUpdateQuery parse db user_id p) user_id = none) :
    update parse db user_id p = (none, applyUpdateQuery parse db user_id p) := by
  unfold update
  rw [hv]
  simp [hfetch]

/-- Core of claim C4 for update: a returned account carries exactly the
recomputed completion of its own current fields, and that account is the
committed row. -/
theorem update_completion_core (parse : String → Option (List String))
    (db : List User) (user_id : Nat) (p : UserUpdatePatch) (u2 : User)
    (hu2 : (update parse db user_id p).1 = some u2) :
    u2.profile_completion = some (calculate_profile_completion u2) ∧
    fetchById (update parse db user_id p).2 user_id = some u2 := by
  rcases hv : validUserUpdate p with _ | _
  · rw [update_eq_invalid hv] at hu2
    exact absurd hu2 (by simp)
  · rcases hfetch : fetchById (applyUpdateQuery parse db user_id p) user_id with _ | u1
    · rw [update_eq_notfound hv hfetch] at hu2
      exact absurd hu2 (by simp)
    · rw [update_eq_found hv hfetch] at hu2
      injection hu2 with hu2
      subst hu2
      refine ⟨rfl, ?_⟩
      rw [update_eq_found hv hfetch]
      exact fetchById_updateRow _ hfetch rfl

/-- Equation for update_profile_section on an absent account. -/
theorem ups_eq_absent {parse : String → Option (List String)} {db : List User}
    {user_id : Nat} {sectionName : String} {d : UserUpdatePatch}
    (hf0 : fetchById db user_id = none) :
    update_profile_section parse db user_id sectionName d = (none, db) := by
  unfold update_profile_section
  rw [hf0]

/-- Equation for update_profile_section on an invalid section name. -/
theorem ups_eq_badsection {parse : String → Option (List String)} {db : List User}
    {user_id : Nat} {sectionName : String} {d : UserUpdatePatch} {u0 : User}
    (hf0 : fetchById db user_id = some u0)
    (hsec : filterSectionPatch sectionName d = none) :
    update_profile_section parse db user_id sectionName d = (none, db) := by
  unfold update_profile_section
  rw [hf0, hsec]

/-- Equation for update_profile_section delegating the filtered patch. -/
theorem ups_eq_found {parse : String → Option (List String)} {db : List User}
    {user_id : Nat} {sectionName : String} {d : UserUpdatePatch} {u0 : User}
    {p2 : UserUpdatePatch}
    (hf0 : fetchById db user_id = some u0)
    (hsec : filterSectionPatch sectionName d = some p2) :
    update_profile_section parse db user_id sectionName d =
      update parse db user_id p2 := by
  unfold update_profile_section
  rw [hf0, hsec]

/-- Claim C4 (amended): after update and after updateProfileSection the
stored profile_completion of the affected account equals the completion
calculation over its current fields, and a caller-supplied
profile_completion in their patch never survives as the final stored
value; create, by contrast, stores the caller-supplied value without
recomputation (see the counterexample). -/
theorem update_recomputes_completion_spec (parse : String → Option (List String))
    (db : List User) (user_id : Nat) (p : UserUpdatePatch)
    (sectionName : String) (d : UserUpdatePatch) :
    (∀ u2, (update parse db user_id p).1 = some u2 →
      u2.profile_completion = some (calculate_profile_completion u2) ∧
      fetchById (update parse db user_id p).2 user_id = some u2) ∧
    (∀ u2, (update_profile_section parse db user_id sectionName d).1 = some u2 →
      u2.profile_completion = some (calculate_profile_completion u2) ∧
      fetchById (update_profile_section parse db user_id sectionName d).2 user_id =
        some u2) := by
  refine ⟨fun u2 h => update_completion_core parse db user_id p u2 h, ?_⟩
  intro u2 h
  rcases hf0 : fetchById db user_id with _ | u0
  · rw [ups_eq_absent hf0] at h
    exact absurd h (by simp)
  · rcases hsec : filterSectionPatch sectionName d with _ | p2
    · rw [ups_eq_badsection hf0 hsec] at h
      exact absurd h (by simp)
    · rw [ups_eq_found hf0 hsec] at h ⊢
      exact update_completion_core parse db user_id p2 u2 h

/-- Counterexample to claim C4 as stated: create carries a caller-supplied
profile_completion of 85 straight into the committed row (UserCreate
inherits the field from UserBase and create never calls
calculate_profile_completion), while the completion calculation over the
stored fields yields 0. -/
theorem create_stores_caller_completion_counterexample :
    (create [] inpC4 ["nick-2"] "tok9" 7).user.map User.profile_completion =
      some (some 85) ∧
    (create [] inpC4 ["nick-2"] "tok9" 7).user.map calculate_profile_completion =
      some 0 ∧
    (85 : Int) ≠ 0 := by
  have hu : (create [] inpC4 ["nick-2"] "tok9" 7).user =
      some { mkNewUser 7 inpC4 "nick-2" with role := UserRole.ADMIN, email_verified := true } := by
    rfl
  have hc : calculate_profile_completion
      { mkNewUser 7 inpC4 "nick-2" with role := UserRole.ADMIN, email_verified := true } = 0 := by
    show round (((fieldFlags _).count true : ℚ) / 17 * 100) = 0
    norm_num [fieldFlags, mkNewUser, inpC4, baseCreateInput, strTruthy, listTruthy,
      dateTruthy, round_eq]
  refine ⟨by rw [hu]; rfl, ?_, by decide⟩
  rw [hu]
  exact congrArg some hc

/-- Witness for the amended claim C4: a concrete update and the matching
updateProfileSection call both return and commit a row whose stored
completion equals the recomputation over its fields. -/
theorem update_recomputes_completion_witness :
    (update (fun _ => none) [baseUser] 1
      { emptyPatch with first_name := some "Zed" }).1 = some uC4after ∧
    (update_profile_section (fun _ => none) [baseUser] 1 "basic_info"
      { emptyPatch with first_name := some "Zed" }).1 = some uC4after ∧
    uC4after.profile_completion = some (calculate_profile_completion uC4after) ∧
    fetchById (update (fun _ => none) [baseUser] 1
      { emptyPatch with first_name := some "Zed" }).2 1 = some uC4after := by
  have H := update_recomputes_completion_spec (fun _ => none) [baseUser] 1
    { emptyPatch with first_name := some "Zed" } "basic_info"
    { emptyPatch with first_name := some "Zed" }
  obtain ⟨hcomp, hstored⟩ := H.1 uC4after rfl
  exact ⟨rfl, rfl, hcomp, hstored⟩

/-- Claim C8 (behavior of the code at the claimed input): a patch that
supplies a structured field as a string is rejected by the UserUpdate
schema validation before the JSON-wrapping branch of update can run, so
update fails and commits nothing; the downstream wrapping logic that the
claim describes does exist (normalizeJsonField wraps an unparsable string
into a one-element list) but is unreachable through update. -/
theorem update_string_structured_rejected (parse : String → Option (List String))
    (db : List User) (user_id : Nat) (p : UserUpdatePatch) (s : String)
    (hs : p.skills = some (JsonInput.str s)) :
    update parse db user_id p = (none, db) ∧
    (parse s = none → normalizeJsonField parse p.skills = some [s]) := by
  constructor
  · apply update_eq_invalid
    unfold validUserUpdate
    rw [hs]
    simp [structuredFieldNative]
  · intro hp
    rw [hs]
    simp [normalizeJsonField, hp]

/-- Witness for the C8 theorem: the concrete string payload is rejected
with no commit, while the dead wrapping branch would produce the
one-element list. -/
theorem update_string_structured_rejected_witness :
    update (fun _ => none) [baseUser] 1
      { emptyPatch with skills := some (JsonInput.str "not json") } =
      (none, [baseUser]) ∧
    normalizeJsonField (fun _ => none) (some (JsonInput.str "not json")) =
      some ["not json"] := by
  have H := update_string_structured_rejected (fun _ => none) [baseUser] 1
    { emptyPatch with skills := some (JsonInput.str "not json") } "not json" rfl
  exact ⟨H.1, H.2 rfl⟩

/-- Claim C9 (amended): get_profile_completion fails when the account is
absent; otherwise it recomputes the completion on the in-memory object and
returns the details structure whose overall completion equals the
recomputed value; the method itself commits nothing, so the stored rows
are returned unchanged. -/
theorem get_profile_completion_spec (db : List User) (user_id : Nat) :
    (fetchById db user_id = none → (get_profile_completion db user_id).1 = none) ∧
    (get_profile_completion db user_id).2 = db ∧
    (∀ u, fetchById db user_id = some u →
      (get_profile_completion db user_id).1 =
        some (get_profile_completion_details (recomputeCompletion u)) ∧
      (get_profile_completion_details (recomputeCompletion u)).overall_completion =
        some (calculate_profile_completion u)) := by
  refine ⟨?_, ?_, ?_⟩
  · intro h
    unfold get_profile_completion
    rw [h]
  · unfold get_profile_completion
    rcases h : fetchById db user_id with _ | u
    · rfl
    · rfl
  · intro u h
    unfold get_profile_completion
    rw [h]
    exact ⟨rfl, rfl⟩

/-- Counterexample to claim C9 as stated: the method never issues a commit,
so on a row whose stored completion is stale (0) the call returns details
with the recomputed value 6 while the stored row still carries 0 — the
recomputed value is not persisted. -/
theorem get_profile_completion_counterexample :
    (get_profile_completion [uC9] 1).2 = [uC9] ∧
    (fetchById (get_profile_completion [uC9] 1).2 1).map User.profile_completion =
      some (some 0) ∧
    (get_profile_completion [uC9] 1).1.map ProfileCompletionDetails.overall_completion =
      some (some (calculate_profile_completion uC9)) ∧
    calculate_profile_completion uC9 = 6 := by
  refine ⟨rfl, rfl, rfl, ?_⟩
  show round (((fieldFlags uC9).count true : ℚ) / 17 * 100) = 6
  norm_num [fieldFlags, uC9, baseUser, strTruthy, listTruthy, dateTruthy, round_eq]

/-- Witness for the amended claim C9: on the concrete one-row store the
call leaves the rows unchanged and returns details whose overall
completion is the recomputed value. -/
theorem get_profile_completion_witness :
    (get_profile_completion [uC9] 1).2 = [uC9] ∧
    (get_profile_completion [uC9] 1).1 =
      some (get_profile_completion_details (recomputeCompletion uC9)) ∧
    (get_profile_completion_details (recomputeCompletion uC9)).overall_completion =
      some (calculate_profile_completion uC9) := by
  have H := get_profile_completion_spec [uC9] 1
  obtain ⟨hdet, hover⟩ := H.2.2 uC9 rfl
  exact ⟨H.2.1, hdet, hover⟩

end UserMgmt
